import Mathlib

/-!
# Page script of the computer store (`templates/static/js/main.js`)

A shallow embedding of the page script: the `DOMContentLoaded` initialiser with
its click and submit handlers and its notification timers, and the helper
`addToCartViaAPI`.

Conventions of the embedding.

* An element is a record of what the script reads or writes on it: tag name,
  attributes, `classList` and `value`.
* A handler is a function from the state it can touch to the new state together
  with the ordered list of calls it makes to the browser (`alert`, `confirm`,
  `preventDefault`, `fetch`, ...).
* JavaScript strings are Lean strings (sequences of code points; a lone
  surrogate, which no function of the script treats specially, has no
  counterpart).
* The widget library and the network are parameters: a constructor of the
  library returns or throws, a request is rejected, answered, or left pending.
-/

namespace Store

/-! ## Elements and selectors -/

/-- An element of the page: tag name, attributes other than `class`, the token
list behind `classList`, and the `value` of the control. -/
structure Element where
  tag : String
  attrs : List (String × String)
  classList : List String
  value : String
deriving DecidableEq

/-- Selector `[name]`: the element carries the attribute. -/
def hasAttr (name : String) (el : Element) : Bool :=
  (el.attrs.lookup name).isSome

/-- Selector `[name=v]` / `[name="v"]`: the attribute is present with that value. -/
def attrIs (name v : String) (el : Element) : Bool :=
  el.attrs.lookup name == some v

/-- Selector `.c`: the class token is in the element's class list. -/
def hasClass (c : String) (el : Element) : Bool :=
  el.classList.contains c

/-- Selector `[required]` of line 22. -/
def isRequired (el : Element) : Bool :=
  hasAttr "required" el

/-- The method `DOMTokenList.add(token)`: appends the token unless it is already there. -/
def classListAdd (token : String) (cl : List String) : List String :=
  if cl.contains token then cl else cl ++ [token]

/-- The method `DOMTokenList.remove(token)`: drops the token. -/
def classListRemove (token : String) (cl : List String) : List String :=
  cl.filter (fun c => c != token)

/-! ## `String.prototype.trim` -/

/-- The code points `trim` strips: ECMAScript WhiteSpace and LineTerminator. -/
def isWhiteSpace (c : Char) : Bool :=
  let n := c.toNat
  n == 0x09 || n == 0x0A || n == 0x0B || n == 0x0C || n == 0x0D || n == 0x20 ||
  n == 0xA0 || n == 0x1680 || (0x2000 ≤ n && n ≤ 0x200A) || n == 0x2028 ||
  n == 0x2029 || n == 0x202F || n == 0x205F || n == 0x3000 || n == 0xFEFF

/-- The method `s.trim()`: strips white space from both ends. -/
def trim (s : String) : String :=
  ⟨((s.data.dropWhile isWhiteSpace).reverse.dropWhile isWhiteSpace).reverse⟩

/-- The test `!field.value.trim()` of line 26: a string is falsy exactly when it
is empty. -/
def isBlank (el : Element) : Bool :=
  trim el.value == ""

/-! ## Calls to the browser -/

/-- A thrown JavaScript error value. -/
structure JSError where
  name : String
  message : String
deriving DecidableEq

/-- The second argument of `fetch` as the script builds it. -/
structure RequestInit where
  method : String
  headers : List (String × String)
  body : String
deriving DecidableEq

/-- The callback handed to `setTimeout` on lines 44-47, identified by the banner
its closure captures. -/
inductive Task where
  | dismiss (banner : Element)
deriving DecidableEq

/-- The functions the script registers as event listeners: the closure of lines
11-15, registered for `click`, and the closure of lines 21-38, registered for
`submit`. -/
inductive Listener where
  | confirmRemoval
  | validateForm
deriving DecidableEq

/-- The calls the script makes to its environment. -/
inductive Call where
  | confirm (message : String)
  | alert (message : String)
  | preventDefault
  | fetch (url : String) (init : RequestInit)
  | locationReload
  | consoleError (label : String) (error : JSError)
  | newTooltip (el : Element)
  | addEventListener (type : String) (el : Element) (listener : Listener)
  | setTimeout (task : Task) (delay : Nat)
  | newAlert (banner : Element)
  | alertClose (banner : Element)
deriving DecidableEq

/-! ## Form validation (lines 21-38) -/

/-- The aggregate message of line 36. -/
def requiredFieldsMessage : String :=
  "Пожалуйста, заполните все обязательные поля."

/-- The body of the `forEach` callback (lines 26-31) on one required field:
the field after the callback and the new value of `isValid`. -/
def validateField (field : Element) (isValid : Bool) : Element × Bool :=
  if isBlank field then
    ({ field with classList := classListAdd "is-invalid" field.classList }, false)
  else
    ({ field with classList := classListRemove "is-invalid" field.classList }, isValid)

/-- Lines 22-32: `form.querySelectorAll('[required]').forEach(...)` over the
descendants of the form in document order. Elements that do not match the
selector are not visited. Returns the descendants after the loop and `isValid`. -/
def forEachRequired : List Element → Bool → List Element × Bool
  | [], isValid => ([], isValid)
  | el :: rest, isValid =>
    if isRequired el then
      let r := validateField el isValid
      let rs := forEachRequired rest r.2
      (r.1 :: rs.1, rs.2)
    else
      let rs := forEachRequired rest isValid
      (el :: rs.1, rs.2)

/-- What the submit listener does to one descendant of the form. -/
def markField (el : Element) : Element :=
  if isRequired el then (validateField el true).1 else el

/-- What one run of an event listener leaves behind: the elements it could
reach, after the run, and the calls it made, in order. -/
structure HandlerRun where
  dom : List Element
  calls : List Call
deriving DecidableEq

/-- The submit listener of lines 21-38, on a form given by its descendants. -/
def submitHandler (form : List Element) : HandlerRun :=
  let r := forEachRequired form true
  if !r.2 then
    { dom := r.1, calls := [Call.preventDefault, Call.alert requiredFieldsMessage] }
  else
    { dom := r.1, calls := [] }

/-! ## Confirmation of destructive actions (lines 11-15) -/

/-- The prompt of line 12. -/
def confirmMessage : String :=
  "Вы уверены?"

/-- The click listener of lines 11-15. `confirmed` is the answer the user gives
to the prompt; `document` is the page, which the listener can reach and does
not touch. -/
def clickHandler (confirmed : Bool) (document : List Element) : HandlerRun :=
  if !confirmed then
    { dom := document, calls := [Call.confirm confirmMessage, Call.preventDefault] }
  else
    { dom := document, calls := [Call.confirm confirmMessage] }

/-- What a registered listener does when the browser invokes it. `confirmed` is
the answer the user gives to a prompt, should the listener show one; `dom` is
what the listener can reach: the page for the click listener, the descendants
of its form for the submit listener. -/
def Listener.run : Listener → Bool → List Element → HandlerRun
  | .confirmRemoval, confirmed, dom => clickHandler confirmed dom
  | .validateForm, _, dom => submitHandler dom

/-- The listeners a list of calls has registered for events of type `type`:
element and listener, in the order registered. -/
def listeners (type : String) : List Call → List (Element × Listener)
  | [] => []
  | Call.addEventListener t el listener :: rest =>
    if t == type then (el, listener) :: listeners type rest else listeners type rest
  | _ :: rest => listeners type rest

/-- The listeners the browser invokes for an event of type `type` on `target`:
those registered on it, in the order registered. Elements are compared as
records, so two elements of the page with the same tag, attributes, classes and
value both answer for `target`. -/
def listenersOn (type : String) (target : Element) (calls : List Call) : List Listener :=
  ((listeners type calls).filter (fun p => p.1 == target)).map (fun p => p.2)

/-! ## JavaScript values -/

/-- A JavaScript Number, kept abstract. The script only tests a Number for
truthiness and renders it as text, so a Number is described by those
observations: `truthy` is false exactly for `+0`, `-0` and `NaN`, `finite` is
false exactly for the infinities and `NaN`, and `text` is `Number::toString`. -/
structure JSNumber where
  truthy : Bool
  finite : Bool
  text : String
deriving DecidableEq

/-- The Number `1`, the default of the parameter `quantity`. -/
def JSNumber.one : JSNumber :=
  { truthy := true, finite := true, text := "1" }

/-- The data values of JavaScript: what `JSON.parse` can produce, and
`undefined`. An object is the list of its own properties in enumeration order. -/
inductive JSValue where
  | undefined
  | null
  | bool (b : Bool)
  | number (n : JSNumber)
  | string (s : String)
  | array (elems : List JSValue)
  | object (props : List (String × JSValue))

/-- Whether the value is `undefined` or `null`. -/
def JSValue.isNullish : JSValue → Bool
  | .undefined => true
  | .null => true
  | _ => false

/-- The conversion `ToBoolean`, which an `if` applies to its condition. -/
def JSValue.toBoolean : JSValue → Bool
  | .undefined => false
  | .null => false
  | .bool b => b
  | .number n => n.truthy
  | .string s => s != ""
  | .array _ => true
  | .object _ => true

/-- The `TypeError` a failed conversion or property access throws. -/
def typeError (message : String) : JSError :=
  { name := "TypeError", message := message }

mutual
/-- The conversion `ToString(ToPrimitive(v))`, as string concatenation applies it. `none` is a
thrown `TypeError`: an object parsed from JSON converts through
`Object.prototype.toString` unless an own property named `toString` shadows it
with a value that is not callable. An array converts through `join`. -/
def JSValue.toStr : JSValue → Option String
  | .undefined => some "undefined"
  | .null => some "null"
  | .bool b => some (if b then "true" else "false")
  | .number n => some n.text
  | .string s => some s
  | .array elems => JSValue.join elems
  | .object props =>
    if (props.lookup "toString").isSome then none else some "[object Object]"
/-- The method `Array.prototype.join` with the default separator: `undefined` and `null`
elements contribute the empty string. -/
def JSValue.join : List JSValue → Option String
  | [] => some ""
  | x :: rest =>
    match (if x.isNullish then some "" else JSValue.toStr x), JSValue.join rest with
    | some a, some b => some (if rest.isEmpty then a else a ++ "," ++ b)
    | _, _ => none
end

/-- The property read `data.error` of line 70. Reading a property of `null` or
`undefined` throws; an object yields its own property or `undefined`; no other
value parsed from JSON has a property of that name. -/
def JSValue.getError : JSValue → Except JSError JSValue
  | .undefined => .error (typeError "cannot read properties of undefined")
  | .null => .error (typeError "cannot read properties of null")
  | .object props => .ok ((props.lookup "error").getD .undefined)
  | _ => .ok .undefined

/-- Whether a parsed response is an object with an own property `error`. -/
def JSValue.hasErrorField : JSValue → Bool
  | .object props => (props.lookup "error").isSome
  | _ => false

/-! ## `JSON.stringify` -/

/-- The escape `QuoteJSONString` writes for one character. -/
def quoteJSONChar (c : Char) : String :=
  let n := c.toNat
  if n == 0x22 then "\x5c\x22"
  else if n == 0x5C then "\x5c\x5c"
  else if n == 0x08 then "\x5cb"
  else if n == 0x09 then "\x5ct"
  else if n == 0x0A then "\x5cn"
  else if n == 0x0C then "\x5cf"
  else if n == 0x0D then "\x5cr"
  else if n < 0x20 then
    "\x5cu00" ++ String.singleton (Nat.digitChar (n / 16)) ++
      String.singleton (Nat.digitChar (n % 16))
  else String.singleton c

/-- The operation `QuoteJSONString`: the text between double quotes, escaped. -/
def quoteJSONString (s : String) : String :=
  "\x22" ++ String.join (s.data.map quoteJSONChar) ++ "\x22"

mutual
/-- The operation `SerializeJSONProperty`: `none` is the result `undefined`. -/
def JSValue.serialize : JSValue → Option String
  | .undefined => none
  | .null => some "null"
  | .bool b => some (if b then "true" else "false")
  | .number n => some (if n.finite then n.text else "null")
  | .string s => some (quoteJSONString s)
  | .array elems => some ("[" ++ ",".intercalate (JSValue.serializeElems elems) ++ "]")
  | .object props =>
    some ("\x7b" ++ ",".intercalate (JSValue.serializeProps props) ++ "\x7d")
/-- The elements of an array: an element that serialises to `undefined` is
written `null`. -/
def JSValue.serializeElems : List JSValue → List String
  | [] => []
  | x :: rest => (JSValue.serialize x).getD "null" :: JSValue.serializeElems rest
/-- The members of an object: a property that serialises to `undefined` is
left out. -/
def JSValue.serializeProps : List (String × JSValue) → List String
  | [] => []
  | (k, v) :: rest =>
    match JSValue.serialize v with
    | some t => (quoteJSONString k ++ ":" ++ t) :: JSValue.serializeProps rest
    | none => JSValue.serializeProps rest
end

/-- The function `JSON.stringify(v)` for an object or array `v`, where the result is a string. -/
def jsonStringify (v : JSValue) : String :=
  (JSValue.serialize v).getD "undefined"

/-! ## `addToCartViaAPI` (lines 54-81) -/

/-- What became of the promise `fetch` returned, and of `response.json()` after
it: the request never settles, the request is rejected (a transport failure),
or a response arrives whose body either parses as JSON or makes
`response.json()` reject. -/
inductive FetchOutcome where
  | pending
  | rejected (reason : JSError)
  | response (json : Except JSError JSValue)

/-- What one run of a function of the script leaves behind: the exception that
left it uncaught, if any, and the calls it made, in order. -/
structure Run where
  thrown : Option JSError
  calls : List Call
deriving DecidableEq

/-- The endpoint of line 57. -/
def cartEndpoint : String :=
  "/api/cart/add_item/"

/-- The message of line 73. -/
def successMessage : String :=
  "Товар добавлен в корзину!"

/-- The message of line 79. -/
def failureMessage : String :=
  "Ошибка при добавлении в корзину"

/-- The callback of lines 69-76 on the parsed body. An exception can only leave
it before it has made any call: from the property read of line 70, or from the
string concatenation of line 71. -/
def onData (data : JSValue) : Except JSError (List Call) :=
  match data.getError with
  | .error e => .error e
  | .ok err =>
    if err.toBoolean then
      match err.toStr with
      | some text => .ok [Call.alert ("Ошибка: " ++ text)]
      | none => .error (typeError "cannot convert object to primitive value")
    else
      .ok [Call.alert successMessage, Call.locationReload]

/-- The `catch` callback of lines 77-80. -/
def onCatch (error : JSError) : List Call :=
  [Call.consoleError "Ошибка:" error, Call.alert failureMessage]

/-- The promise chain of lines 68-80 once the request has its outcome: a
rejection anywhere up the chain, or an exception thrown by a callback, reaches
the `catch` callback. -/
def settle : FetchOutcome → List Call
  | .pending => []
  | .rejected reason => onCatch reason
  | .response (.error reason) => onCatch reason
  | .response (.ok data) =>
    match onData data with
    | .ok calls => calls
    | .error e => onCatch e

/-- The default `quantity = 1` of line 54: it applies when the argument is
omitted, that is `undefined`. -/
def defaultQuantity : JSValue → JSValue
  | .undefined => .number JSNumber.one
  | q => q

/-- The `init` argument of lines 57-67. -/
def requestInit (csrfToken : String) (productId quantity : JSValue) : RequestInit :=
  { method := "POST"
    headers := [("Content-Type", "application/json"), ("X-CSRFToken", csrfToken)]
    body := jsonStringify (.object [("product_id", productId), ("quantity", quantity)]) }

/-- The function `addToCartViaAPI(productId, quantity = 1)`. `document` is the
page in document order, `network` is what the environment answers to a request.
The calls after `fetch` are those of the promise callbacks, which run later, in
this order. -/
def addToCartViaAPI (document : List Element) (productId quantity : JSValue)
    (network : String → RequestInit → FetchOutcome) : Run :=
  match document.find? (attrIs "name" "csrfmiddlewaretoken") with
  | none => { thrown := some (typeError "cannot read properties of null"), calls := [] }
  | some field =>
    let init := requestInit field.value productId (defaultQuantity quantity)
    { thrown := none
      calls := Call.fetch cartEndpoint init :: settle (network cartEndpoint init) }

/-- Whether a call is a call of `fetch`, that is, a request. -/
def Call.isFetch : Call → Bool
  | .fetch _ _ => true
  | _ => false

/-! ## Initialisation (lines 1-49) -/

/-- The constructors of the widget library the script calls, `bootstrap.Tooltip`
and `bootstrap.Alert`. The library is not part of the script; a constructor
either returns or throws. -/
structure Bootstrap where
  Tooltip : Element → Except JSError Unit
  Alert : Element → Except JSError Unit

/-- Lines 4-6: `tooltipTriggerList.map(...)`. An exception thrown by a
constructor ends the loop and leaves it. -/
def mapTooltips (bootstrap : Bootstrap) : List Element → Run
  | [] => { thrown := none, calls := [] }
  | el :: rest =>
    match bootstrap.Tooltip el with
    | .error e => { thrown := some e, calls := [Call.newTooltip el] }
    | .ok _ =>
      let r := mapTooltips bootstrap rest
      { thrown := r.thrown, calls := Call.newTooltip el :: r.calls }

/-- Selector `.remove-from-cart, .btn-danger` of line 9. -/
def isRemoveButton (el : Element) : Bool :=
  hasClass "remove-from-cart" el || hasClass "btn-danger" el

/-- Selector `form` of line 19. -/
def isForm (el : Element) : Bool :=
  el.tag == "form"

/-- Selector `.alert` of line 42. -/
def isAlert (el : Element) : Bool :=
  hasClass "alert" el

/-- The delay of line 47, in milliseconds. -/
def dismissDelay : Nat :=
  5000

/-- The `DOMContentLoaded` listener of lines 1-49 on the page `document`, given
in document order. Nothing in it catches an exception, so one thrown during
tooltip activation ends the listener there. -/
def onDOMContentLoaded (bootstrap : Bootstrap) (document : List Element) : Run :=
  let tooltips := mapTooltips bootstrap (document.filter (attrIs "data-bs-toggle" "tooltip"))
  match tooltips.thrown with
  | some e => { thrown := some e, calls := tooltips.calls }
  | none =>
    { thrown := none
      calls := tooltips.calls
        ++ (document.filter isRemoveButton).map
            (fun button => Call.addEventListener "click" button Listener.confirmRemoval)
        ++ (document.filter isForm).map
            (fun form => Call.addEventListener "submit" form Listener.validateForm)
        ++ (document.filter isAlert).map (fun a => Call.setTimeout (Task.dismiss a) dismissDelay) }

/-- The timer callback of lines 45-46: construct the controller of the banner,
then close it. -/
def runTask (bootstrap : Bootstrap) : Task → Run
  | .dismiss banner =>
    match bootstrap.Alert banner with
    | .error e => { thrown := some e, calls := [Call.newAlert banner] }
    | .ok _ => { thrown := none, calls := [Call.newAlert banner, Call.alertClose banner] }

/-- The timers a list of calls has set: callback and delay, in the order set. -/
def timers : List Call → List (Task × Nat)
  | [] => []
  | Call.setTimeout task delay :: rest => (task, delay) :: timers rest
  | _ :: rest => timers rest

/-- Whether `banner` has been closed by a timer callback `now` milliseconds
after the calls were made. The event loop runs a callback once its delay has
elapsed, `lag` milliseconds late at its own choice, and never early. -/
def dismissedBy (bootstrap : Bootstrap) (lag : Task → Nat) (calls : List Call) (now : Nat)
    (banner : Element) : Bool :=
  (timers calls).any (fun td =>
    decide (td.2 + lag td.1 ≤ now) &&
      (runTask bootstrap td.1).calls.contains (Call.alertClose banner))

/-! ## Sample elements -/

/-- A required text input whose value is white space only. -/
def sampleBlankRequired : Element :=
  { tag := "input", attrs := [("name", "phone"), ("required", "")], classList := ["form-control"],
    value := " \t " }

/-- A required text input with a value, still marked invalid from an earlier submit. -/
def sampleFilledRequired : Element :=
  { tag := "input", attrs := [("name", "email"), ("required", "")],
    classList := ["form-control", "is-invalid"], value := "a@b.c" }

/-- An input that is not required, has a value, and carries the class
`is-invalid`, as the server renders a field that failed its validation. -/
def sampleOptionalMarked : Element :=
  { tag := "input", attrs := [("name", "promo")], classList := ["form-control", "is-invalid"],
    value := "SALE" }

/-- An input that is not required and is empty. -/
def sampleOptionalEmpty : Element :=
  { tag := "input", attrs := [("name", "comment")], classList := ["form-control"], value := "" }

/-- The hidden input that carries the CSRF token. -/
def sampleCsrfField : Element :=
  { tag := "input", attrs := [("type", "hidden"), ("name", "csrfmiddlewaretoken")],
    classList := [], value := "k3yT0ken" }

/-- An element flagged for a tooltip. -/
def sampleTooltipTrigger : Element :=
  { tag := "button", attrs := [("data-bs-toggle", "tooltip"), ("title", "Info")],
    classList := ["btn"], value := "" }

/-- A button that removes a line of the cart. -/
def sampleDangerButton : Element :=
  { tag := "button", attrs := [("type", "submit")], classList := ["btn", "btn-danger"],
    value := "" }

/-- A notification banner. -/
def sampleBanner : Element :=
  { tag := "div", attrs := [("role", "alert")], classList := ["alert", "alert-success"],
    value := "" }

/-- A widget library whose constructors return. -/
def workingBootstrap : Bootstrap :=
  { Tooltip := fun _ => .ok (), Alert := fun _ => .ok () }

/-- A page on which the widget library did not load: naming `bootstrap` throws. -/
def missingBootstrap : Bootstrap :=
  { Tooltip := fun _ => .error { name := "ReferenceError", message := "bootstrap is not defined" }
    Alert := fun _ => .error { name := "ReferenceError", message := "bootstrap is not defined" } }

/-- The Number `7`. -/
def sampleSeven : JSNumber :=
  { truthy := true, finite := true, text := "7" }

/-- The rejection of `fetch` when the network is unreachable. -/
def sampleNetworkError : JSError :=
  { name := "TypeError", message := "Failed to fetch" }

/-! ## Lemmas on form validation -/

theorem dropWhile_eq_nil_iff_all (p : Char → Bool) (l : List Char) :
    l.dropWhile p = [] ↔ ∀ c ∈ l, p c = true := by
  induction l with
  | nil => simp
  | cons a rest ih =>
    by_cases h : p a = true
    · simp [List.dropWhile_cons, h, ih]
    · simp [List.dropWhile_cons, h]

/-- A value is empty after `trim` exactly when all its characters are white
space (in particular when it is empty). -/
theorem trim_eq_empty_iff (s : String) :
    trim s = "" ↔ ∀ c ∈ s.data, isWhiteSpace c = true := by
  have h1 : trim s = "" ↔
      ((s.data.dropWhile isWhiteSpace).reverse.dropWhile isWhiteSpace).reverse = [] := by
    unfold trim
    constructor
    · intro h
      exact congrArg String.data h
    · intro h
      rw [h]
  rw [h1, List.reverse_eq_nil_iff]
  constructor
  · intro h
    have hall := (dropWhile_eq_nil_iff_all isWhiteSpace _).1 h
    have hnil : s.data.dropWhile isWhiteSpace = [] := by
      by_contra hne
      have hhead := List.head_dropWhile_not isWhiteSpace s.data hne
      have hmem : (s.data.dropWhile isWhiteSpace).head hne ∈
          (s.data.dropWhile isWhiteSpace).reverse :=
        List.mem_reverse.2 (List.head_mem hne)
      rw [hall _ hmem] at hhead
      cases hhead
    exact (dropWhile_eq_nil_iff_all isWhiteSpace _).1 hnil
  · intro h
    rw [(dropWhile_eq_nil_iff_all isWhiteSpace _).2 h]
    rfl

theorem isBlank_iff (el : Element) : isBlank el = true ↔ trim el.value = "" := by
  simp [isBlank]

theorem validateField_fst (el : Element) (v : Bool) :
    (validateField el v).1 = (validateField el true).1 := by
  unfold validateField; split <;> rfl

theorem validateField_snd (el : Element) (v : Bool) :
    (validateField el v).2 = (v && !isBlank el) := by
  unfold validateField; split <;> simp_all

theorem forEachRequired_fst (l : List Element) (v : Bool) :
    (forEachRequired l v).1 = l.map markField := by
  induction l generalizing v with
  | nil => rfl
  | cons el rest ih =>
    unfold forEachRequired
    by_cases h : isRequired el = true
    · simp only [h, if_true, List.map_cons, ih, markField]
      rw [validateField_fst]
    · simp only [h, List.map_cons, ih, markField]
      simp

theorem forEachRequired_snd (l : List Element) (v : Bool) :
    (forEachRequired l v).2 = (v && !(l.any (fun el => isRequired el && isBlank el))) := by
  induction l generalizing v with
  | nil => simp [forEachRequired]
  | cons el rest ih =>
    unfold forEachRequired
    by_cases h : isRequired el = true
    · simp only [h, if_true, ih, validateField_snd, List.any_cons, Bool.true_and]
      cases v <;> cases isBlank el <;> simp
    · simp only [h, ih, List.any_cons]
      simp [h]

theorem submitHandler_dom (form : List Element) :
    (submitHandler form).dom = form.map markField := by
  unfold submitHandler
  simp only [forEachRequired_fst]
  split <;> rfl

theorem submitHandler_calls (form : List Element) :
    (submitHandler form).calls =
      if form.any (fun el => isRequired el && isBlank el) then
        [Call.preventDefault, Call.alert requiredFieldsMessage]
      else [] := by
  unfold submitHandler
  simp only [forEachRequired_snd, Bool.true_and, Bool.not_not]
  split <;> rfl

theorem markField_value (el : Element) : (markField el).value = el.value := by
  unfold markField validateField
  split
  · split <;> rfl
  · rfl

theorem markField_attrs (el : Element) : (markField el).attrs = el.attrs := by
  unfold markField validateField
  split
  · split <;> rfl
  · rfl

theorem markField_tag (el : Element) : (markField el).tag = el.tag := by
  unfold markField validateField
  split
  · split <;> rfl
  · rfl

theorem markField_isRequired (el : Element) : isRequired (markField el) = isRequired el := by
  simp [isRequired, hasAttr, markField_attrs]

theorem markField_isBlank (el : Element) : isBlank (markField el) = isBlank el := by
  simp [isBlank, markField_value]

theorem mem_classListAdd (t : String) (cl : List String) : t ∈ classListAdd t cl := by
  unfold classListAdd
  split
  · simp_all
  · simp

theorem not_mem_classListRemove (t : String) (cl : List String) :
    t ∉ classListRemove t cl := by
  simp [classListRemove]

theorem markField_marked (el : Element) (h : isRequired el = true) :
    "is-invalid" ∈ (markField el).classList ↔ trim el.value = "" := by
  rw [← isBlank_iff]
  unfold markField validateField
  simp only [h, if_true]
  split
  · simp [mem_classListAdd, *]
  · simp [not_mem_classListRemove, *]

theorem markField_other_classes (el : Element) :
    (markField el).classList.filter (fun c => c != "is-invalid") =
      el.classList.filter (fun c => c != "is-invalid") := by
  unfold markField validateField
  split
  · split
    · simp only [classListAdd]
      split
      · rfl
      · simp
    · simp [classListRemove]
  · rfl

theorem markField_blank (el : Element) (h : isRequired el = true) (hb : isBlank el = true) :
    markField el = { el with classList := classListAdd "is-invalid" el.classList } := by
  simp [markField, validateField, h, hb]

theorem markField_filled (el : Element) (h : isRequired el = true) (hb : isBlank el = false) :
    markField el = { el with classList := classListRemove "is-invalid" el.classList } := by
  simp [markField, validateField, h, hb]

theorem markField_optional (el : Element) (h : isRequired el = false) :
    markField el = el := by
  simp [markField, h]

theorem markField_idem (el : Element) : markField (markField el) = markField el := by
  cases h : isRequired el with
  | false => rw [markField_optional el h, markField_optional el h]
  | true =>
    have h2 : isRequired (markField el) = true := by rw [markField_isRequired, h]
    cases hb : isBlank el with
    | true =>
      have hb2 : isBlank (markField el) = true := by rw [markField_isBlank, hb]
      have hm : "is-invalid" ∈ (markField el).classList :=
        (markField_marked el h).2 ((isBlank_iff el).1 hb)
      rw [markField_blank _ h2 hb2]
      have : classListAdd "is-invalid" (markField el).classList = (markField el).classList := by
        simp [classListAdd, hm]
      rw [this]
    | false =>
      have hb2 : isBlank (markField el) = false := by rw [markField_isBlank, hb]
      rw [markField_filled _ h2 hb2, markField_filled el h hb]
      simp [classListRemove]

/-! ## Form validation: the claims -/

/-- C1. The submit listener calls `preventDefault` if and only if some required
field of the form has a value that is empty after trimming. When it does, its
calls are `preventDefault` and the aggregate message, shown once however many
fields failed; when it does not, it makes no call, so it shows no message. -/
theorem submitHandler_cancels_iff_blank_required (form : List Element) :
    (Call.preventDefault ∈ (submitHandler form).calls ↔
      ∃ f ∈ form, isRequired f = true ∧ trim f.value = "") ∧
    (Call.preventDefault ∈ (submitHandler form).calls →
      (submitHandler form).calls = [Call.preventDefault, Call.alert "Пожалуйста, заполните все обязательные поля."] ∧
      (submitHandler form).calls.count (Call.alert "Пожалуйста, заполните все обязательные поля.") = 1) ∧
    (Call.preventDefault ∉ (submitHandler form).calls → (submitHandler form).calls = []) := by
  rw [submitHandler_calls]
  by_cases h : form.any (fun el => isRequired el && isBlank el) = true
  · simp only [h, if_true]
    refine ⟨⟨fun _ => ?_, fun _ => by simp⟩, fun _ => ⟨rfl, by decide⟩, fun hn => absurd (by simp) hn⟩
    obtain ⟨f, hf, hfb⟩ := List.any_eq_true.1 h
    simp only [Bool.and_eq_true] at hfb
    exact ⟨f, hf, hfb.1, (isBlank_iff f).1 hfb.2⟩
  · simp only [h]
    refine ⟨⟨fun hm => by simp at hm, fun ⟨f, hf, hr, hb⟩ => ?_⟩, fun hm => by simp at hm, fun _ => rfl⟩
    exact absurd (List.any_eq_true.2 ⟨f, hf, by simp [hr, (isBlank_iff f).2 hb]⟩) h

/-- C1, at a form with two blank required fields and one filled one: the
submission is cancelled and the message is shown once. -/
theorem submitHandler_cancels_iff_blank_required_witness :
    (submitHandler [sampleBlankRequired, sampleFilledRequired, sampleBlankRequired]).calls =
      [Call.preventDefault, Call.alert "Пожалуйста, заполните все обязательные поля."] ∧
    (submitHandler [sampleBlankRequired, sampleFilledRequired, sampleBlankRequired]).calls.count
      (Call.alert "Пожалуйста, заполните все обязательные поля.") = 1 :=
  (submitHandler_cancels_iff_blank_required
      [sampleBlankRequired, sampleFilledRequired, sampleBlankRequired]).2.1
    ((submitHandler_cancels_iff_blank_required
      [sampleBlankRequired, sampleFilledRequired, sampleBlankRequired]).1.2
      ⟨sampleBlankRequired, by simp, by decide, by decide⟩)

/-- C2, as stated, fails: a field that is not required keeps the marking
`is-invalid` through a submit although it has a value, and a field that is not
required and empty is not marked. -/
theorem submitHandler_optional_fields_not_revalidated :
    (∃ el ∈ (submitHandler [sampleOptionalMarked, sampleOptionalEmpty]).dom,
      "is-invalid" ∈ el.classList ∧ trim el.value ≠ "") ∧
    (∃ el ∈ (submitHandler [sampleOptionalMarked, sampleOptionalEmpty]).dom,
      "is-invalid" ∉ el.classList ∧ trim el.value = "") :=
  ⟨⟨sampleOptionalMarked, by decide, by decide, by decide⟩,
   ⟨sampleOptionalEmpty, by decide, by decide, by decide⟩⟩

/-- C2, amended. After the submit listener has run, the form has the same
fields with the same values, and among its required fields those that carry
`is-invalid` are exactly those whose value is empty after trimming, whatever
markings they carried before. -/
theorem submitHandler_marks_exactly_blank_required (form : List Element) :
    (submitHandler form).dom.map (fun el => (el.tag, el.attrs, el.value)) =
      form.map (fun el => (el.tag, el.attrs, el.value)) ∧
    ∀ el ∈ (submitHandler form).dom, isRequired el = true →
      ("is-invalid" ∈ el.classList ↔ trim el.value = "") := by
  rw [submitHandler_dom]
  constructor
  · simp [List.map_map, Function.comp_def, markField_tag, markField_attrs, markField_value]
  · intro el hel hreq
    obtain ⟨e, _, rfl⟩ := List.mem_map.1 hel
    rw [markField_isRequired] at hreq
    rw [markField_value]
    exact markField_marked e hreq

/-- C2 amended, at a form where a blank required field was unmarked and a
filled required field was marked: after the submit the markings are swapped. -/
theorem submitHandler_marks_exactly_blank_required_witness :
    (submitHandler [sampleBlankRequired, sampleFilledRequired]).dom.map
        (fun el => decide ("is-invalid" ∈ el.classList)) = [true, false] ∧
    ("is-invalid" ∈ (markField sampleBlankRequired).classList ↔
      trim (markField sampleBlankRequired).value = "") :=
  ⟨by decide,
   (submitHandler_marks_exactly_blank_required [sampleBlankRequired, sampleFilledRequired]).2
     (markField sampleBlankRequired) (by decide) (by decide)⟩

/-- C3. Running the submit listener a second time on the form the first run
left behind gives the same form, so the same markings on every field, and makes
the same calls, so the same decision to cancel or to allow. -/
theorem submitHandler_idempotent (form : List Element) :
    (submitHandler (submitHandler form).dom).dom = (submitHandler form).dom ∧
    (submitHandler (submitHandler form).dom).calls = (submitHandler form).calls := by
  constructor
  · simp [submitHandler_dom, List.map_map, Function.comp_def, markField_idem]
  · simp [submitHandler_calls, submitHandler_dom, List.any_map, Function.comp_def,
      markField_isRequired, markField_isBlank]

/-- C10. The submit listener keeps the number and order of the elements of the
form, and on each element it keeps the tag, the attributes, the value and every
class other than `is-invalid`; an element that is not required is left exactly
as it was, a class `is-invalid` included. -/
theorem submitHandler_frame (form : List Element) :
    (submitHandler form).dom.length = form.length ∧
    ∀ (i : Nat) (before after : Element),
      form[i]? = some before → (submitHandler form).dom[i]? = some after →
        after.tag = before.tag ∧ after.attrs = before.attrs ∧ after.value = before.value ∧
        after.classList.filter (fun c => c != "is-invalid") =
          before.classList.filter (fun c => c != "is-invalid") ∧
        (isRequired before = false → after = before) := by
  rw [submitHandler_dom]
  refine ⟨by simp, ?_⟩
  intro i before after hb ha
  rw [List.getElem?_map, hb] at ha
  simp only [Option.map_some', Option.some.injEq] at ha
  subst ha
  exact ⟨markField_tag _, markField_attrs _, markField_value _, markField_other_classes _,
    markField_optional _⟩

/-- C10, at a form with a required and a non-required field, both marked: the
non-required one is untouched, the required one loses only `is-invalid`. -/
theorem submitHandler_frame_witness :
    (submitHandler [sampleFilledRequired, sampleOptionalMarked]).dom[1]? =
      some sampleOptionalMarked ∧
    (markField sampleFilledRequired).classList = ["form-control"] ∧
    (markField sampleFilledRequired).value = sampleFilledRequired.value :=
  ⟨by decide, by decide,
   ((submitHandler_frame [sampleFilledRequired, sampleOptionalMarked]).2 0
      sampleFilledRequired (markField sampleFilledRequired) (by decide) (by decide)).2.2.1⟩

/-! ## Lemmas on the confirmation of destructive actions -/

/-- The click listener shows the prompt once and calls `preventDefault` if and
only if the user declines; in both cases it leaves the page as it was. -/
theorem clickHandler_calls (confirmed : Bool) (document : List Element) :
    (clickHandler confirmed document).calls.count (Call.confirm "Вы уверены?") = 1 ∧
    (Call.preventDefault ∈ (clickHandler confirmed document).calls ↔ confirmed = false) ∧
    (confirmed = false →
      (clickHandler confirmed document).calls =
        [Call.confirm "Вы уверены?", Call.preventDefault] ∧
      (clickHandler confirmed document).dom = document) ∧
    (confirmed = true →
      (clickHandler confirmed document).calls = [Call.confirm "Вы уверены?"] ∧
      (clickHandler confirmed document).dom = document) := by
  cases confirmed
  · refine ⟨?_, by simp [clickHandler], fun _ => ⟨rfl, rfl⟩, fun h => Bool.noConfusion h⟩
    simp [clickHandler, confirmMessage, List.count_cons]
  · refine ⟨?_, by simp [clickHandler], fun h => Bool.noConfusion h, fun _ => ⟨rfl, rfl⟩⟩
    simp [clickHandler, confirmMessage, List.count_cons]

/-! ## Lemmas on `addToCartViaAPI` -/

theorem onCatch_filter_isFetch (e : JSError) : (onCatch e).filter Call.isFetch = [] := rfl

theorem onData_filter_isFetch (data : JSValue) (calls : List Call)
    (h : onData data = .ok calls) : calls.filter Call.isFetch = [] := by
  unfold onData at h
  split at h
  · cases h
  · split at h
    · split at h
      · cases h; rfl
      · cases h
    · cases h; rfl

theorem settle_filter_isFetch (o : FetchOutcome) : (settle o).filter Call.isFetch = [] := by
  unfold settle
  split
  · rfl
  · rfl
  · rfl
  · split
    · next calls h => exact onData_filter_isFetch _ calls h
    · rfl

theorem fetch_not_mem_settle (o : FetchOutcome) (url : String) (init : RequestInit) :
    Call.fetch url init ∉ settle o := by
  intro h
  have : Call.fetch url init ∈ (settle o).filter Call.isFetch :=
    List.mem_filter.2 ⟨h, rfl⟩
  rw [settle_filter_isFetch] at this
  cases this

theorem addToCartViaAPI_of_csrf (document : List Element) (productId quantity : JSValue)
    (network : String → RequestInit → FetchOutcome) (field : Element)
    (h : document.find? (attrIs "name" "csrfmiddlewaretoken") = some field) :
    addToCartViaAPI document productId quantity network =
      { thrown := none
        calls := Call.fetch cartEndpoint
            (requestInit field.value productId (defaultQuantity quantity)) ::
          settle (network cartEndpoint
            (requestInit field.value productId (defaultQuantity quantity))) } := by
  unfold addToCartViaAPI
  rw [h]

theorem defaultQuantity_of_ne (q : JSValue) (h : q ≠ .undefined) : defaultQuantity q = q := by
  cases q <;> first | rfl | exact absurd rfl h

/-! ## `addToCartViaAPI`: the claims -/

/-- C4, as stated, fails: on the response body with an `error` field holding the
empty string, the helper shows the success message and reloads the page. -/
theorem addToCartViaAPI_empty_error_reloads :
    JSValue.hasErrorField (.object [("error", .string "")]) = true ∧
    (addToCartViaAPI [sampleCsrfField] (.number sampleSeven) .undefined
      (fun _ _ => .response (.ok (.object [("error", .string "")])))).calls =
      [Call.fetch cartEndpoint
          (requestInit "k3yT0ken" (.number sampleSeven) (.number JSNumber.one)),
        Call.alert "Товар добавлен в корзину!", Call.locationReload] :=
  ⟨rfl, by decide⟩

/-- C4, amended. When the response is a JSON object whose `error` field is a
string that is not empty, the helper shows one alert, the text `Ошибка: `
followed by that string, does not reload the page, and throws nothing. -/
theorem addToCartViaAPI_shows_error_message (document : List Element)
    (productId quantity : JSValue) (network : String → RequestInit → FetchOutcome)
    (field : Element) (props : List (String × JSValue)) (message : String)
    (hcsrf : document.find? (attrIs "name" "csrfmiddlewaretoken") = some field)
    (hresp : network cartEndpoint (requestInit field.value productId (defaultQuantity quantity))
      = .response (.ok (.object props)))
    (herr : props.lookup "error" = some (.string message)) (hne : message ≠ "") :
    (addToCartViaAPI document productId quantity network).calls =
      [Call.fetch cartEndpoint (requestInit field.value productId (defaultQuantity quantity)),
        Call.alert ("Ошибка: " ++ message)] ∧
    Call.locationReload ∉ (addToCartViaAPI document productId quantity network).calls ∧
    (addToCartViaAPI document productId quantity network).thrown = none := by
  have hs : settle (network cartEndpoint
      (requestInit field.value productId (defaultQuantity quantity))) =
      [Call.alert ("Ошибка: " ++ message)] := by
    rw [hresp]
    simp [settle, onData, JSValue.getError, herr, JSValue.toBoolean, JSValue.toStr, hne]
  rw [addToCartViaAPI_of_csrf _ _ _ _ field hcsrf, hs]
  simp

/-- C4 amended, at the body with the error `Out of stock`. -/
theorem addToCartViaAPI_shows_error_message_witness :
    (addToCartViaAPI [sampleCsrfField] (.number sampleSeven) .undefined
      (fun _ _ => .response (.ok (.object [("error", .string "Out of stock")])))).calls =
      [Call.fetch cartEndpoint
          (requestInit sampleCsrfField.value (.number sampleSeven) (defaultQuantity .undefined)),
        Call.alert ("Ошибка: " ++ "Out of stock")] :=
  (addToCartViaAPI_shows_error_message [sampleCsrfField] (.number sampleSeven) .undefined
    (fun _ _ => .response (.ok (.object [("error", .string "Out of stock")])))
    sampleCsrfField [("error", .string "Out of stock")] "Out of stock"
    rfl rfl rfl (by decide)).1

/-- C5, as stated, fails: the body `null` is a parsed JSON response without an
`error` field, and on it the property read throws, so the helper logs the
error and shows the failure message, with no success message and no reload. -/
theorem addToCartViaAPI_null_body_fails :
    JSValue.hasErrorField .null = false ∧
    (addToCartViaAPI [sampleCsrfField] (.number sampleSeven) .undefined
      (fun _ _ => .response (.ok .null))).calls =
      [Call.fetch cartEndpoint
          (requestInit "k3yT0ken" (.number sampleSeven) (.number JSNumber.one)),
        Call.consoleError "Ошибка:" (typeError "cannot read properties of null"),
        Call.alert "Ошибка при добавлении в корзину"] :=
  ⟨rfl, by decide⟩

/-- C5, amended. When the parsed response is not `null` (nor `undefined`, which
parsing never yields) and has no `error` field, the helper shows the success
message, then reloads the page once, shows no other message and throws
nothing. -/
theorem addToCartViaAPI_success (document : List Element)
    (productId quantity : JSValue) (network : String → RequestInit → FetchOutcome)
    (field : Element) (data : JSValue)
    (hcsrf : document.find? (attrIs "name" "csrfmiddlewaretoken") = some field)
    (hresp : network cartEndpoint (requestInit field.value productId (defaultQuantity quantity))
      = .response (.ok data))
    (hnull : data ≠ .null) (hundef : data ≠ .undefined)
    (hfield : data.hasErrorField = false) :
    (addToCartViaAPI document productId quantity network).calls =
      [Call.fetch cartEndpoint (requestInit field.value productId (defaultQuantity quantity)),
        Call.alert "Товар добавлен в корзину!", Call.locationReload] ∧
    (addToCartViaAPI document productId quantity network).calls.count Call.locationReload = 1 ∧
    (addToCartViaAPI document productId quantity network).thrown = none := by
  have hd : onData data = .ok [Call.alert "Товар добавлен в корзину!", Call.locationReload] := by
    cases data with
    | undefined => exact absurd rfl hundef
    | null => exact absurd rfl hnull
    | object props =>
      have : props.lookup "error" = none := by
        simpa [JSValue.hasErrorField] using hfield
      simp [onData, JSValue.getError, this, JSValue.toBoolean, successMessage]
    | _ => simp [onData, JSValue.getError, JSValue.toBoolean, successMessage]
  have hs : settle (network cartEndpoint
      (requestInit field.value productId (defaultQuantity quantity))) =
      [Call.alert "Товар добавлен в корзину!", Call.locationReload] := by
    rw [hresp]
    simp [settle, hd]
  rw [addToCartViaAPI_of_csrf _ _ _ _ field hcsrf, hs]
  simp [List.count_cons]

/-- C5 amended, at the empty object. -/
theorem addToCartViaAPI_success_witness :
    (addToCartViaAPI [sampleCsrfField] (.number sampleSeven) .undefined
      (fun _ _ => .response (.ok (.object [])))).calls =
      [Call.fetch cartEndpoint
          (requestInit sampleCsrfField.value (.number sampleSeven) (defaultQuantity .undefined)),
        Call.alert "Товар добавлен в корзину!", Call.locationReload] :=
  (addToCartViaAPI_success [sampleCsrfField] (.number sampleSeven) .undefined
    (fun _ _ => .response (.ok (.object []))) sampleCsrfField (.object [])
    rfl rfl (fun h => JSValue.noConfusion h) (fun h => JSValue.noConfusion h) rfl).1

/-- C6. In every call that issues a request, when the request is rejected (a
transport failure) or `response.json()` rejects (the body is not JSON), the
calls after the request are one `console.error` with the rejection and one
alert with the generic message; there is no reload and nothing is thrown out of
the helper. -/
theorem addToCartViaAPI_failure_caught (document : List Element)
    (productId quantity : JSValue) (network : String → RequestInit → FetchOutcome)
    (url : String) (init : RequestInit) (reason : JSError)
    (hissued : Call.fetch url init ∈ (addToCartViaAPI document productId quantity network).calls)
    (hfail : network url init = .rejected reason ∨
      network url init = .response (.error reason)) :
    (addToCartViaAPI document productId quantity network).calls =
      [Call.fetch url init, Call.consoleError "Ошибка:" reason, Call.alert "Ошибка при добавлении в корзину"] ∧
    Call.locationReload ∉ (addToCartViaAPI document productId quantity network).calls ∧
    (addToCartViaAPI document productId quantity network).thrown = none := by
  cases hfind : document.find? (attrIs "name" "csrfmiddlewaretoken") with
  | none =>
    simp [addToCartViaAPI, hfind] at hissued
  | some field =>
    rw [addToCartViaAPI_of_csrf _ _ _ _ field hfind] at hissued ⊢
    simp only [List.mem_cons] at hissued
    rcases hissued with heq | hmem
    · injection heq with hu hi
      subst hu hi
      have hs : settle (network cartEndpoint
          (requestInit field.value productId (defaultQuantity quantity))) = onCatch reason := by
        rcases hfail with h | h <;> rw [h] <;> rfl
      rw [hs]
      simp [onCatch, failureMessage]
    · exact absurd hmem (fetch_not_mem_settle _ _ _)

/-- C6, at a request that fails in transport. -/
theorem addToCartViaAPI_failure_caught_witness :
    (addToCartViaAPI [sampleCsrfField] (.number sampleSeven) .undefined
      (fun _ _ => .rejected sampleNetworkError)).calls =
      [Call.fetch cartEndpoint
          (requestInit "k3yT0ken" (.number sampleSeven) (.number JSNumber.one)),
        Call.consoleError "Ошибка:" sampleNetworkError, Call.alert "Ошибка при добавлении в корзину"] ∧
    (addToCartViaAPI [sampleCsrfField] (.number sampleSeven) .undefined
      (fun _ _ => .rejected sampleNetworkError)).thrown = none :=
  ⟨(addToCartViaAPI_failure_caught [sampleCsrfField] (.number sampleSeven) .undefined
      (fun _ _ => .rejected sampleNetworkError) cartEndpoint
      (requestInit "k3yT0ken" (.number sampleSeven) (.number JSNumber.one)) sampleNetworkError
      (by decide) (Or.inl rfl)).1, rfl⟩

/-- C8. When the page has the CSRF field, the helper calls `fetch` exactly once,
whatever the network answers: with the URL `/api/cart/add_item/`, the method
POST, the headers `Content-Type: application/json` and `X-CSRFToken` set to the
value of the field, and as body the JSON text of the object with `product_id`
and `quantity`; when `quantity` is omitted the body carries the quantity 1. -/
theorem addToCartViaAPI_request (document : List Element)
    (productId quantity : JSValue) (network : String → RequestInit → FetchOutcome)
    (field : Element)
    (hcsrf : document.find? (attrIs "name" "csrfmiddlewaretoken") = some field) :
    (quantity ≠ .undefined →
      (addToCartViaAPI document productId quantity network).calls.filter Call.isFetch =
        [Call.fetch "/api/cart/add_item/"
          { method := "POST"
            headers := [("Content-Type", "application/json"), ("X-CSRFToken", field.value)]
            body := jsonStringify
              (.object [("product_id", productId), ("quantity", quantity)]) }]) ∧
    (addToCartViaAPI document productId .undefined network).calls.filter Call.isFetch =
      [Call.fetch "/api/cart/add_item/"
        { method := "POST"
          headers := [("Content-Type", "application/json"), ("X-CSRFToken", field.value)]
          body := jsonStringify
            (.object [("product_id", productId), ("quantity", .number JSNumber.one)]) }] := by
  constructor
  · intro hq
    rw [addToCartViaAPI_of_csrf _ _ _ _ field hcsrf, defaultQuantity_of_ne _ hq]
    simp [List.filter_cons, Call.isFetch, settle_filter_isFetch, cartEndpoint, requestInit]
  · rw [addToCartViaAPI_of_csrf _ _ _ _ field hcsrf]
    simp [List.filter_cons, Call.isFetch, settle_filter_isFetch, cartEndpoint, requestInit,
      defaultQuantity]

/-- C8, at product 7 with the quantity given as 7 and with the quantity
omitted, on a response that reports success: one request each, with the bodies
written out. -/
theorem addToCartViaAPI_request_witness :
    (addToCartViaAPI [sampleBanner, sampleCsrfField] (.number sampleSeven) (.number sampleSeven)
      (fun _ _ => .response (.ok (.object [])))).calls.filter Call.isFetch =
      [Call.fetch "/api/cart/add_item/"
        { method := "POST"
          headers := [("Content-Type", "application/json"), ("X-CSRFToken", "k3yT0ken")]
          body := "\x7b\x22product_id\x22:7,\x22quantity\x22:7\x7d" }] ∧
    (addToCartViaAPI [sampleBanner, sampleCsrfField] (.number sampleSeven) .undefined
      (fun _ _ => .response (.ok (.object [])))).calls.filter Call.isFetch =
      [Call.fetch "/api/cart/add_item/"
        { method := "POST"
          headers := [("Content-Type", "application/json"), ("X-CSRFToken", "k3yT0ken")]
          body := "\x7b\x22product_id\x22:7,\x22quantity\x22:1\x7d" }] :=
  ⟨(addToCartViaAPI_request [sampleBanner, sampleCsrfField] (.number sampleSeven)
      (.number sampleSeven) (fun _ _ => .response (.ok (.object []))) sampleCsrfField rfl).1
      (fun h => JSValue.noConfusion h),
   (addToCartViaAPI_request [sampleBanner, sampleCsrfField] (.number sampleSeven)
      (.number sampleSeven) (fun _ _ => .response (.ok (.object []))) sampleCsrfField rfl).2⟩

/-! ## Lemmas on initialisation -/

theorem mapTooltips_of_ok (bootstrap : Bootstrap) (l : List Element)
    (h : ∀ el ∈ l, bootstrap.Tooltip el = .ok ()) :
    mapTooltips bootstrap l = { thrown := none, calls := l.map Call.newTooltip } := by
  induction l with
  | nil => rfl
  | cons el rest ih =>
    have h1 : bootstrap.Tooltip el = .ok () := h el (List.mem_cons_self _ _)
    have h2 := ih (fun e he => h e (List.mem_cons_of_mem _ he))
    simp [mapTooltips, h1, h2]

theorem timers_append (a b : List Call) : timers (a ++ b) = timers a ++ timers b := by
  induction a with
  | nil => rfl
  | cons c rest ih => cases c <;> simp [timers, ih]

theorem timers_map_newTooltip (l : List Element) : timers (l.map Call.newTooltip) = [] := by
  induction l with
  | nil => rfl
  | cons el rest ih => simp [timers, ih]

theorem timers_map_addEventListener (type : String) (listener : Listener) (l : List Element) :
    timers (l.map (fun el => Call.addEventListener type el listener)) = [] := by
  induction l with
  | nil => rfl
  | cons el rest ih => simp [timers, ih]

theorem timers_map_setTimeout (delay : Nat) (l : List Element) :
    timers (l.map (fun a => Call.setTimeout (Task.dismiss a) delay)) =
      l.map (fun a => (Task.dismiss a, delay)) := by
  induction l with
  | nil => rfl
  | cons el rest ih => simp [timers, ih]

theorem onDOMContentLoaded_of_ok (bootstrap : Bootstrap) (document : List Element)
    (h : ∀ el ∈ document, attrIs "data-bs-toggle" "tooltip" el = true →
      bootstrap.Tooltip el = .ok ()) :
    onDOMContentLoaded bootstrap document =
      { thrown := none
        calls := (document.filter (attrIs "data-bs-toggle" "tooltip")).map Call.newTooltip
          ++ (document.filter isRemoveButton).map
              (fun button => Call.addEventListener "click" button Listener.confirmRemoval)
          ++ (document.filter isForm).map
              (fun form => Call.addEventListener "submit" form Listener.validateForm)
          ++ (document.filter isAlert).map
              (fun a => Call.setTimeout (Task.dismiss a) dismissDelay) } := by
  have hm := mapTooltips_of_ok bootstrap (document.filter (attrIs "data-bs-toggle" "tooltip"))
    (fun el hel => h el (List.mem_filter.1 hel).1 (List.mem_filter.1 hel).2)
  unfold onDOMContentLoaded
  simp only [hm]

/-! ## Initialisation: the claim -/

/-- C9, as stated, fails: on a page with a tooltip trigger and a banner where
the widget library did not load, tooltip activation throws, the listener ends
there, and no dismissal is scheduled for the banner. -/
theorem onDOMContentLoaded_aborts_before_scheduling :
    [sampleTooltipTrigger, sampleBanner].filter isAlert = [sampleBanner] ∧
    timers (onDOMContentLoaded missingBootstrap [sampleTooltipTrigger, sampleBanner]).calls
      = [] ∧
    (onDOMContentLoaded missingBootstrap [sampleTooltipTrigger, sampleBanner]).thrown =
      some { name := "ReferenceError", message := "bootstrap is not defined" } :=
  ⟨by decide, by decide, by decide⟩

/-- C9, amended. Provided the constructors of the widget library do not throw on
the elements of the page, the listener sets, for the banners of the page in
order, one timer each, with the dismissal of that banner as callback and a
delay of 5000 ms, and sets no other timer; it closes no banner itself; a banner
has been closed `now` ms later exactly when it is a banner of the page and its
callback has run, which is 5000 ms plus the lateness of the event loop after
the listener; so no banner is closed before 5000 ms. -/
theorem onDOMContentLoaded_schedules_dismissal (bootstrap : Bootstrap)
    (document : List Element)
    (hTooltip : ∀ el ∈ document, attrIs "data-bs-toggle" "tooltip" el = true →
      bootstrap.Tooltip el = .ok ())
    (hAlert : ∀ el ∈ document, isAlert el = true → bootstrap.Alert el = .ok ()) :
    timers (onDOMContentLoaded bootstrap document).calls =
      (document.filter isAlert).map (fun a => (Task.dismiss a, 5000)) ∧
    (∀ banner, Call.alertClose banner ∉ (onDOMContentLoaded bootstrap document).calls) ∧
    (∀ lag banner now,
      dismissedBy bootstrap lag (onDOMContentLoaded bootstrap document).calls now banner = true ↔
        (banner ∈ document ∧ isAlert banner = true ∧
          5000 + lag (Task.dismiss banner) ≤ now)) ∧
    (∀ lag banner now,
      dismissedBy bootstrap lag (onDOMContentLoaded bootstrap document).calls now banner = true →
        5000 ≤ now) := by
  have ht : timers (onDOMContentLoaded bootstrap document).calls =
      (document.filter isAlert).map (fun a => (Task.dismiss a, 5000)) := by
    rw [onDOMContentLoaded_of_ok bootstrap document hTooltip]
    simp [timers_append, timers_map_newTooltip, timers_map_addEventListener,
      timers_map_setTimeout, dismissDelay]
  have hiff : ∀ (lag : Task → Nat) (banner : Element) (now : Nat),
      dismissedBy bootstrap lag (onDOMContentLoaded bootstrap document).calls now banner = true ↔
        (banner ∈ document ∧ isAlert banner = true ∧
          5000 + lag (Task.dismiss banner) ≤ now) := by
    intro lag banner now
    unfold dismissedBy
    rw [ht]
    simp only [List.any_eq_true, Bool.and_eq_true, decide_eq_true_eq, List.mem_map,
      List.mem_filter]
    constructor
    · rintro ⟨td, ⟨a, ⟨ha, haA⟩, rfl⟩, hnow, hc⟩
      have hok := hAlert a ha haA
      simp [runTask, hok] at hc
      subst hc
      exact ⟨ha, haA, hnow⟩
    · rintro ⟨hb, hbA, hnow⟩
      refine ⟨(Task.dismiss banner, 5000), ⟨banner, ⟨hb, hbA⟩, rfl⟩, hnow, ?_⟩
      simp [runTask, hAlert banner hb hbA]
  refine ⟨ht, ?_, hiff, ?_⟩
  · intro banner
    rw [onDOMContentLoaded_of_ok bootstrap document hTooltip]
    simp
  · intro lag banner now h
    have := ((hiff lag banner now).1 h).2.2
    omega

/-- C9 amended, at a page with a tooltip trigger and a banner and a working
library, with a prompt event loop: one timer of 5000 ms for the banner, which
is open at 4999 ms and closed at 5000 ms. -/
theorem onDOMContentLoaded_schedules_dismissal_witness :
    timers (onDOMContentLoaded workingBootstrap [sampleTooltipTrigger, sampleBanner]).calls =
      [(Task.dismiss sampleBanner, 5000)] ∧
    dismissedBy workingBootstrap (fun _ => 0)
      (onDOMContentLoaded workingBootstrap [sampleTooltipTrigger, sampleBanner]).calls
      4999 sampleBanner = false ∧
    dismissedBy workingBootstrap (fun _ => 0)
      (onDOMContentLoaded workingBootstrap [sampleTooltipTrigger, sampleBanner]).calls
      5000 sampleBanner = true :=
  ⟨(onDOMContentLoaded_schedules_dismissal workingBootstrap [sampleTooltipTrigger, sampleBanner]
      (fun _ _ _ => rfl) (fun _ _ _ => rfl)).1,
   by decide, by decide⟩

/-! ## Lemmas on the registration of listeners -/

theorem listeners_append (type : String) (a b : List Call) :
    listeners type (a ++ b) = listeners type a ++ listeners type b := by
  induction a with
  | nil => rfl
  | cons c rest ih =>
    cases c with
    | addEventListener t el l =>
      simp only [List.cons_append, listeners]
      split <;> simp [ih]
    | _ => simp [listeners, ih]

theorem listeners_map_newTooltip (type : String) (l : List Element) :
    listeners type (l.map Call.newTooltip) = [] := by
  induction l with
  | nil => rfl
  | cons el rest ih => simp [listeners, ih]

theorem listeners_map_setTimeout (type : String) (delay : Nat) (l : List Element) :
    listeners type (l.map (fun a => Call.setTimeout (Task.dismiss a) delay)) = [] := by
  induction l with
  | nil => rfl
  | cons el rest ih => simp [listeners, ih]

theorem listeners_map_same (type : String) (listener : Listener) (l : List Element) :
    listeners type (l.map (fun el => Call.addEventListener type el listener)) =
      l.map (fun el => (el, listener)) := by
  induction l with
  | nil => rfl
  | cons el rest ih => simp [listeners, ih]

theorem listeners_map_other (type other : String) (listener : Listener) (l : List Element)
    (h : (other == type) = false) :
    listeners type (l.map (fun el => Call.addEventListener other el listener)) = [] := by
  induction l with
  | nil => rfl
  | cons el rest ih => simp [listeners, ih, h]

/-- When tooltip activation does not throw, the listener registers one submit
listener, the validation of lines 21-38, on each `form` element of the page. -/
theorem onDOMContentLoaded_submit_listeners (bootstrap : Bootstrap) (document : List Element)
    (hTooltip : ∀ el ∈ document, attrIs "data-bs-toggle" "tooltip" el = true →
      bootstrap.Tooltip el = .ok ()) :
    listeners "submit" (onDOMContentLoaded bootstrap document).calls =
      (document.filter (fun el => el.tag == "form")).map
        (fun el => (el, Listener.validateForm)) := by
  rw [onDOMContentLoaded_of_ok bootstrap document hTooltip]
  simp only [listeners_append, listeners_map_newTooltip, listeners_map_setTimeout,
    listeners_map_same, listeners_map_other "submit" "click" _ _ (by decide),
    List.nil_append, List.append_nil]
  rfl

/-! ## Confirmation of destructive actions: the claim -/

/-- C7, as stated, fails: on a page with a tooltip trigger and a removal button
where the widget library did not load, tooltip activation throws, the listener
of `DOMContentLoaded` ends before line 9, and no click listener is registered
on the button, so a click on it shows no prompt. -/
theorem onDOMContentLoaded_aborts_before_click_listeners :
    [sampleTooltipTrigger, sampleDangerButton].filter
      (fun el => hasClass "remove-from-cart" el || hasClass "btn-danger" el) =
      [sampleDangerButton] ∧
    listenersOn "click" sampleDangerButton
      (onDOMContentLoaded missingBootstrap [sampleTooltipTrigger, sampleDangerButton]).calls
      = [] ∧
    (onDOMContentLoaded missingBootstrap [sampleTooltipTrigger, sampleDangerButton]).thrown =
      some { name := "ReferenceError", message := "bootstrap is not defined" } :=
  ⟨by decide, by decide, by decide⟩

/-- C7, amended. Provided tooltip activation does not throw, the click listeners
the initialiser registers are one per element of the page classed
`remove-from-cart` or `btn-danger`, in document order, and none on any other
element. On a click on such an element a listener runs, and every listener
that runs shows the confirmation prompt exactly once and calls
`preventDefault` if and only if the user declines; when the user declines, the
prompt and `preventDefault` are its only calls (no request, no reload) and the
page is as it was; when the user accepts, the prompt is its only call, so the
event is not touched, and the page is as it was. -/
theorem onDOMContentLoaded_click_confirms (bootstrap : Bootstrap) (document : List Element)
    (hTooltip : ∀ el ∈ document, attrIs "data-bs-toggle" "tooltip" el = true →
      bootstrap.Tooltip el = .ok ()) :
    listeners "click" (onDOMContentLoaded bootstrap document).calls =
      (document.filter
        (fun el => hasClass "remove-from-cart" el || hasClass "btn-danger" el)).map
        (fun el => (el, Listener.confirmRemoval)) ∧
    ∀ el ∈ document, (hasClass "remove-from-cart" el || hasClass "btn-danger" el) = true →
      listenersOn "click" el (onDOMContentLoaded bootstrap document).calls ≠ [] ∧
      ∀ l ∈ listenersOn "click" el (onDOMContentLoaded bootstrap document).calls,
        ∀ (confirmed : Bool) (page : List Element),
          (l.run confirmed page).calls.count (Call.confirm "Вы уверены?") = 1 ∧
          (Call.preventDefault ∈ (l.run confirmed page).calls ↔ confirmed = false) ∧
          (confirmed = false →
            (l.run confirmed page).calls =
              [Call.confirm "Вы уверены?", Call.preventDefault] ∧
            (l.run confirmed page).dom = page) ∧
          (confirmed = true →
            (l.run confirmed page).calls = [Call.confirm "Вы уверены?"] ∧
            (l.run confirmed page).dom = page) := by
  have hl : listeners "click" (onDOMContentLoaded bootstrap document).calls =
      (document.filter
        (fun el => hasClass "remove-from-cart" el || hasClass "btn-danger" el)).map
        (fun el => (el, Listener.confirmRemoval)) := by
    rw [onDOMContentLoaded_of_ok bootstrap document hTooltip]
    simp only [listeners_append, listeners_map_newTooltip, listeners_map_setTimeout,
      listeners_map_same, listeners_map_other "click" "submit" _ _ (by decide),
      List.nil_append, List.append_nil]
    rfl
  refine ⟨hl, fun el hel hcls => ⟨?_, ?_⟩⟩
  · intro hnil
    have hmem : Listener.confirmRemoval ∈
        listenersOn "click" el (onDOMContentLoaded bootstrap document).calls := by
      unfold listenersOn
      rw [hl]
      refine List.mem_map.2 ⟨(el, Listener.confirmRemoval), List.mem_filter.2 ⟨?_, by simp⟩, rfl⟩
      exact List.mem_map.2 ⟨el, List.mem_filter.2 ⟨hel, hcls⟩, rfl⟩
    rw [hnil] at hmem
    cases hmem
  · intro l hmem confirmed page
    have hconf : l = Listener.confirmRemoval := by
      unfold listenersOn at hmem
      rw [hl] at hmem
      obtain ⟨p, hp, rfl⟩ := List.mem_map.1 hmem
      obtain ⟨e, _, rfl⟩ := List.mem_map.1 (List.mem_filter.1 hp).1
      rfl
    subst hconf
    exact clickHandler_calls confirmed page

/-- C7 amended, at a page with a tooltip trigger, a removal button and a banner
and a working library: the button has the one click listener of the page, and
when the user declines, the listener prompts, cancels, and leaves the page. -/
theorem onDOMContentLoaded_click_confirms_witness :
    listeners "click"
      (onDOMContentLoaded workingBootstrap
        [sampleTooltipTrigger, sampleDangerButton, sampleBanner]).calls =
      [(sampleDangerButton, Listener.confirmRemoval)] ∧
    (Listener.confirmRemoval.run false [sampleTooltipTrigger, sampleDangerButton, sampleBanner]
      ).calls = [Call.confirm "Вы уверены?", Call.preventDefault] ∧
    (Listener.confirmRemoval.run false [sampleTooltipTrigger, sampleDangerButton, sampleBanner]
      ).dom = [sampleTooltipTrigger, sampleDangerButton, sampleBanner] :=
  ⟨by decide,
   ((((onDOMContentLoaded_click_confirms workingBootstrap
      [sampleTooltipTrigger, sampleDangerButton, sampleBanner] (fun _ _ _ => rfl)).2
      sampleDangerButton (by decide) (by decide)).2
      Listener.confirmRemoval (by decide) false
      [sampleTooltipTrigger, sampleDangerButton, sampleBanner]).2.2.1 rfl)⟩

end Store
